import Mathlib

set_option maxHeartbeats 1000000

/- Shallow embedding of src/автопубликатор/bot.py (class ReliableNewsBot).

   Mutable instance state (self.categories, self.current_article) is modelled as
   an explicit BotState threaded through the operations.  Python dict aliasing is
   modelled by CurrentRef: the current article is either a fresh record or a
   reference into the catalogue's fallback_articles list, so that the
   dict.update call in use_fallback_article mutates the catalogue record, as it
   does in the source.  random.choice on a list xs is modelled as
   xs.getD (r % xs.length) dflt for a caller-supplied seed r; the dflt value is
   never reached on the start-up catalogue, whose lists are all non-empty
   (Python raises IndexError on an empty list there).  Network effects (feed
   fetch, page fetch, image probe, message sends) are supplied as explicit
   environment data. -/

inductive CatId
  | tech
  | politics
deriving DecidableEq

/-- A Python article dict.  The catalogue's fallback_articles initially carry
only title and summary; the category and is_fallback keys are optional because
use_fallback_article adds them by mutation later. -/
structure ArticleRec where
  title : String
  summary : String
  link : Option String
  category : Option CatId
  isFallback : Option Bool
deriving DecidableEq

structure Category where
  name : String
  emoji : String
  rss : List String
  imageKeywords : List String
  fallbackImages : List String
  fallbackArticles : List ArticleRec
deriving DecidableEq

def dfltArticle : ArticleRec := ⟨"", "", none, none, none⟩

def dfltCategory : Category := ⟨"", "", [], [], [], []⟩

def techCategory : Category :=
  ⟨"💻 Технологии", "💻",
   ["https://habr.com/ru/rss/hub/python/",
    "https://3dnews.ru/bitrix/rss.php",
    "https://www.ixbt.com/export/news.rss",
    "https://vc.ru/rss"],
   ["технологии", "компьютер", "робот"],
   ["https://images.unsplash.com/photo-1517430816045-df4b7de11d1d",
    "https://images.unsplash.com/photo-1558494949-ef010cbdcc31"],
   [⟨"Новые технологии в IT",
     "Современные технологии развиваются быстрыми темпами...", none, none, none⟩,
    ⟨"Искусственный интеллект",
     "ИИ меняет наш подход к решению задач...", none, none, none⟩]⟩

def politicsCategory : Category :=
  ⟨"🏛 Политика", "🏛",
   ["https://lenta.ru/rss/news",
    "https://www.kommersant.ru/RSS/news.xml",
    "https://ria.ru/export/rss2/politics/index.xml",
    "https://tass.ru/rss/v2.xml"],
   ["политика", "кремль", "правительство"],
   ["https://images.unsplash.com/photo-1562601579-599dec564e06",
    "https://images.unsplash.com/photo-1580130732478-4e339fb33746"],
   [⟨"Политические новости",
     "Важные политические события происходят...", none, none, none⟩,
    ⟨"Международные отношения",
     "Страны обсуждают новые соглашения...", none, none, none⟩]⟩

/-- self.categories: the start-up catalogue, insertion order tech then politics. -/
structure Catalogue where
  tech : Category
  politics : Category
deriving DecidableEq

def Catalogue.get (k : Catalogue) : CatId → Category
  | .tech => k.tech
  | .politics => k.politics

def Catalogue.setCat (k : Catalogue) : CatId → Category → Catalogue
  | .tech, v => ⟨v, k.politics⟩
  | .politics, v => ⟨k.tech, v⟩

/-- list(self.categories.values()), in dict insertion order. -/
def catValues (k : Catalogue) : List Category := [k.tech, k.politics]

def initCatalogue : Catalogue := ⟨techCategory, politicsCategory⟩

/-- self.current_article is either None, a fresh dict built in
try_get_fresh_article, or an alias of a catalogue fallback_articles record
(the assignment in use_fallback_article copies a reference, not the dict). -/
inductive CurrentRef
  | fresh (a : ArticleRec)
  | fbRef (c : CatId) (i : Nat)
deriving DecidableEq

structure BotState where
  cat : Catalogue
  current : Option CurrentRef
deriving DecidableEq

def initState : BotState := ⟨initCatalogue, none⟩

def derefRef (st : BotState) : CurrentRef → ArticleRec
  | .fresh a => a
  | .fbRef c i => ((st.cat.get c).fallbackArticles).getD i dfltArticle

/-- The article dict currently referenced by self.current_article. -/
def currentArticle (st : BotState) : Option ArticleRec :=
  st.current.map (derefRef st)

/-- The ellipsis marker appended by the summary truncation. -/
def ellipsis : List Char := ['.', '.', '.']

/-- clean_text[:250] + ... if len(clean_text) > 250 else clean_text
(bot.py line 235), on the markup-stripped summary text. -/
def truncateSummary (s : List Char) : List Char :=
  if 250 < s.length then s.take 250 ++ ellipsis else s

def truncateSummaryStr (s : String) : String := String.mk (truncateSummary s.data)

/-- A parsed feed entry.  cleanSummary models the output of the external
HTML-stripping step (BeautifulSoup get_text on entry.summary/description),
i.e. the cleaned text before the truncation at line 235. -/
structure Entry where
  title : String
  link : String
  cleanSummary : String

/-- Outcome of one feed fetch + parse (session.get, raise_for_status,
feedparser.parse): netError covers a request exception and a non-2xx status
(raise_for_status); entries is the parsed entry list, possibly empty. -/
inductive FeedResult
  | netError
  | entries (es : List Entry)

/-- True when this fetch result makes the loop body continue to the next URL:
a network / status error, or a feed with no entries. -/
def FeedResult.failed : FeedResult → Bool
  | .netError => true
  | .entries es => es.isEmpty

/-- The for-loop of try_get_fresh_article (bot.py lines 216-248) over the
category's rss list: first URL whose fetch parses with at least one entry
yields a fresh article dict; pe seeds random.choice over the first 10 entries. -/
def tryFeeds (cid : CatId) (fetch : String → FeedResult) (pe : Nat) :
    List String → Option ArticleRec
  | [] => none
  | url :: rest =>
    match fetch url with
    | .netError => tryFeeds cid fetch pe rest
    | .entries [] => tryFeeds cid fetch pe rest
    | .entries (e :: es) =>
      let pool := (e :: es).take 10
      let entry := pool.getD (pe % pool.length) e
      some ⟨entry.title, truncateSummaryStr entry.cleanSummary,
            some entry.link, some cid, some false⟩

/-- try_get_fresh_article: returns the fresh article dict (Python sets
self.current_article and returns True) or none (returns False).  The
self.categories.get guard cannot fail here because CatId enumerates exactly
the defined categories. -/
def tryGetFreshArticle (c : Category) (cid : CatId) (fetch : String → FeedResult)
    (pe : Nat) : Option ArticleRec :=
  tryFeeds cid fetch pe c.rss

/-- use_fallback_article (bot.py lines 252-259): picks
random.choice(category[fallback_articles]) — which aliases the catalogue
record — then dict.update adds category and is_fallback keys in place, so the
catalogue itself is updated; self.current_article becomes a reference to that
catalogue slot. -/
def useFallbackArticle (st : BotState) (c : CatId) (r : Nat) : BotState :=
  let cat := st.cat.get c
  let arts := cat.fallbackArticles
  let i := r % arts.length
  let chosen := arts.getD i dfltArticle
  let arts2 := arts.set i ⟨chosen.title, chosen.summary, chosen.link, some c, some true⟩
  ⟨st.cat.setCat c ⟨cat.name, cat.emoji, cat.rss, cat.imageKeywords,
                    cat.fallbackImages, arts2⟩,
   some (.fbRef c i)⟩

/-- The article-resolution step of process_category (bot.py lines 163-167):
try_get_fresh_article, else use_fallback_article. -/
def resolveArticle (st : BotState) (c : CatId) (fetch : String → FeedResult)
    (pe r : Nat) : BotState :=
  match tryGetFreshArticle (st.cat.get c) c fetch pe with
  | some a => ⟨st.cat, some (.fresh a)⟩
  | none => useFallbackArticle st c r

/-- External calls observable from get_image_with_fallback: the article-page
extraction attempt and the Unsplash HEAD probe. -/
inductive ExtCall
  | extractCall
  | probeCall
deriving DecidableEq

/-- Environment for one run of get_image_with_fallback: the outcome of
extract_image_from_article (none covers both a returned None and a swallowed
exception), the HEAD probe outcome (none = request exception, some k = HTTP
status k), and the random.choice seeds for keyword, fallback image and (when
no article is set) category. -/
structure ImgEnv where
  extract : Option String
  probe : Option Nat
  pickKw : Nat
  pickFb : Nat
  pickCat : Nat

def unsplashBase : String := "https://source.unsplash.com/800x600/?"

/-- Step 1 of get_image_with_fallback (bot.py lines 268-275): the extraction
attempt runs only when current_article.get(is_fallback, True) is False; its
result is kept only when truthy (if img:), and any exception is swallowed. -/
def imgStep1 (a : ArticleRec) (env : ImgEnv) : Option String × List ExtCall :=
  if a.isFallback.getD true = false then
    match env.extract with
    | some img => if img = "" then (none, [.extractCall]) else (some img, [.extractCall])
    | none => (none, [.extractCall])
  else (none, [])

/-- get_image_with_fallback (bot.py lines 261-289).  Returns none exactly when
the category lookup self.categories[self.current_article[category]] raises
(missing key), which escapes this function; otherwise some (url, calls made).
With no current article it returns fallback_images[0] of a random category
before any network call.  The probe branch keeps the Unsplash URL only on
HTTP 200 (if resp.status_code == 200); an exception or any other status falls
through to the random fallback image. -/
def getImageWithFallback (cat : Catalogue) (cur : Option ArticleRec)
    (env : ImgEnv) : Option (String × List ExtCall) :=
  match cur with
  | none =>
    let vals := catValues cat
    some (((vals.getD (env.pickCat % vals.length) dfltCategory).fallbackImages).getD 0 "", [])
  | some a =>
    match a.category with
    | none => none
    | some cid =>
      let c := cat.get cid
      match imgStep1 a env with
      | (some img, log) => some (img, log)
      | (none, log) =>
        let kw := c.imageKeywords.getD (env.pickKw % c.imageKeywords.length) ""
        let url := unsplashBase ++ kw
        if env.probe = some 200 then some (url, log ++ [.probeCall])
        else some ((c.fallbackImages).getD (env.pickFb % c.fallbackImages.length) "",
                   log ++ [.probeCall])

/-- send_with_retry (bot.py lines 110-119) with the default max_retries=3:
f i tells whether invocation attempt i succeeds; the result is (number of
attempts made, overall success); after the third failed attempt the exception
is re-raised. -/
def retryAttempts (f : Nat → Bool) : Nat × Bool :=
  if f 0 then (1, true) else if f 1 then (2, true) else (3, f 2)

/-- Observable outcome of send_news_message: attempts made on the photo send,
attempts made on the plain-text fallback send (0 when not reached), and
whether the call raised out of the function. -/
structure SendReport where
  photoTries : Nat
  textTries : Nat
  raised : Bool
deriving DecidableEq

/-- send_news_message (bot.py lines 316-347): the photo send goes through
send_with_retry; if that raises, the except block sends the caption as plain
text — again through send_with_retry, with the same reply_markup. -/
def sendNewsMessage (photoTry textTry : Nat → Bool) : SendReport :=
  let p := retryAttempts photoTry
  if p.2 then ⟨p.1, 0, false⟩
  else
    let t := retryAttempts textTry
    ⟨p.1, t.1, !t.2⟩

/-- A meta tag on the fetched article page: its property attribute and its
content attribute, either possibly absent (dict.get semantics). -/
structure MetaTag where
  prop : Option (List Char)
  content : Option (List Char)
deriving DecidableEq

/-- The parsed article page: its meta tags in document order and the src
attributes of its img[src] tags in document order. -/
structure ArticlePage where
  metas : List MetaTag
  imgs : List (List Char)
deriving DecidableEq

/-- The recognized extension substrings tested against an img src
(bot.py line 310). -/
def imageExts : List (List Char) := [".jpg".data, ".jpeg".data, ".png".data]

/-- Python substring containment (pat in s): some tail of s starts with pat. -/
def hasSub (pat : List Char) : List Char → Bool
  | [] => pat.isEmpty
  | c :: rest => pat.isPrefixOf (c :: rest) || hasSub pat rest

/-- The img-tag filter at bot.py line 310:
img[src].startswith(http) and any(ext in img[src] for ext in [...]) —
substring containment, not a suffix test. -/
def goodInlineSrc (s : List Char) : Bool :=
  "http".data.isPrefixOf s && imageExts.any (fun e => hasSub e s)

/-- The inline-image loop (bot.py lines 309-311): first src passing the filter. -/
def firstInlineImage (srcs : List (List Char)) : Option (List Char) :=
  srcs.find? goodInlineSrc

/-- The meta-tag filter at bot.py lines 303-306: property is og:image or
twitter:image and content startswith http (a matching property with a
non-http content does not return; the loop continues). -/
def metaImageOk (m : MetaTag) : Bool :=
  (m.prop == some "og:image".data || m.prop == some "twitter:image".data)
    && "http".data.isPrefixOf (m.content.getD [])

/-- extract_image_from_article (bot.py lines 291-314): none when the current
article has no link or the page fetch/parse raises (exception swallowed,
returns None); otherwise the first matching meta image, else the first
matching inline image, else none (falls off the end). -/
def extractImageFromArticle (link : Option String) (page : Option ArticlePage) :
    Option (List Char) :=
  match link with
  | none => none
  | some _ =>
    match page with
    | none => none
    | some p =>
      match p.metas.find? metaImageOk with
      | some m => some (m.content.getD [])
      | none => firstInlineImage p.imgs

/-- Messages observably sent by publish_article: a photo+caption post to the
configured channel, or a notice shown to the operator (edit_message_text). -/
inductive Msg
  | channelPost (caption : String) (img : String)
  | userNotice (t : String)
deriving DecidableEq

def noDataText : String := "⚠️ Нет данных для публикации"

def publishFailText : String := "⚠️ Не удалось опубликовать новость. Попробуйте позже."

def publishedText (c : Category) : String :=
  "✅ *Новость опубликована в канале!*\n\nКатегория: " ++ c.name

/-- The caption format shared by process_category and publish_article. -/
def postText (c : Category) (a : ArticleRec) : String :=
  c.emoji ++ " *" ++ c.name ++ "*\n\n📌 *" ++ a.title ++ "*\n\n" ++ a.summary

/-- Success of each send_with_retry call made inside publish_article (true =
some attempt succeeds; false = all three attempts fail and the call raises):
the channel send_photo, the success confirmation edit, the no-data warning
edit, and the error-notice edit in the except block. -/
structure PublishIO where
  channelOk : Bool
  confirmOk : Bool
  warnOk : Bool
  errOk : Bool

/-- Result of one handler step: the state afterwards, the messages delivered,
and whether an exception escaped the handler. -/
structure StepResult where
  state : BotState
  msgs : List Msg
  raised : Bool
deriving DecidableEq

/-- publish_article (bot.py lines 367-406).  With no current article it only
shows the no-data warning.  Otherwise the try block looks up the category,
resolves an image, sends the photo to the channel, edits the confirmation and
only then clears self.current_article; any exception in the try block
(category key missing, channel send or confirmation edit exhausting retries)
reaches the except block, which shows the error notice and leaves the draft
as it was.  A send failure inside the except block (or on the warning path)
re-raises. -/
def publishArticle (st : BotState) (io : PublishIO) (env : ImgEnv) : StepResult :=
  match st.current with
  | none =>
    if io.warnOk then ⟨st, [.userNotice noDataText], false⟩
    else ⟨st, [], true⟩
  | some ref =>
    let a := derefRef st ref
    match a.category with
    | none =>
      if io.errOk then ⟨st, [.userNotice publishFailText], false⟩
      else ⟨st, [], true⟩
    | some cid =>
      let c := st.cat.get cid
      match getImageWithFallback st.cat (some a) env with
      | none =>
        if io.errOk then ⟨st, [.userNotice publishFailText], false⟩
        else ⟨st, [], true⟩
      | some (img, _) =>
        if io.channelOk then
          if io.confirmOk then
            ⟨⟨st.cat, none⟩,
             [.channelPost (postText c a) img, .userNotice (publishedText c)], false⟩
          else
            if io.errOk then
              ⟨st, [.channelPost (postText c a) img, .userNotice publishFailText], false⟩
            else ⟨st, [.channelPost (postText c a) img], true⟩
        else
          if io.errOk then ⟨st, [.userNotice publishFailText], false⟩
          else ⟨st, [], true⟩

def degradedNoticeText : String :=
  "📌 *Технологии*\n\n🔧 Бот временно использует резервные новости. Попробуйте позже!"

/-- Environment for process_category: the feed fetch oracle, the random seeds,
the image environment, whether send_news_message raises out (photo retries and
the text fallback all exhausted), and whether the degraded notice in the
except block can be delivered. -/
structure ProcEnv where
  fetch : String → FeedResult
  pe : Nat
  r : Nat
  img : ImgEnv
  sendRaises : Bool
  noticeOk : Bool

/-- Result of process_category: normal completion, or an exception escaping
the handler (the notice send in the except block itself raised). -/
inductive ProcResult
  | ok (st : BotState) (msgs : List Msg)
  | raisedOut (st : BotState)
deriving DecidableEq

/-- process_category (bot.py lines 159-208), fuel-indexed because its except
block re-enters process_category itself: resolve an article, resolve an image,
send; on any exception, send the degraded notice, force the tech fallback
article and recurse with category tech.  none means the recursion consumed all
fuel, i.e. the run did not terminate within the given bound. -/
def processCategory : Nat → BotState → CatId → ProcEnv → Option ProcResult
  | 0, _, _, _ => none
  | fuel + 1, st, c, env =>
    let st1 := resolveArticle st c env.fetch env.pe env.r
    let imgRes := getImageWithFallback st1.cat (currentArticle st1) env.img
    if imgRes.isNone || env.sendRaises then
      if env.noticeOk then
        let st2 := useFallbackArticle st1 .tech env.r
        processCategory fuel st2 .tech env
      else some (.raisedOut st1)
    else
      match currentArticle st1, imgRes with
      | some a, some _ =>
        some (.ok st1 [.userNotice (postText (st1.cat.get c) a)])
      | _, _ => some (.raisedOut st1)

/-- Helper: a feed loop over URLs that all fail yields no article. -/
theorem tryFeeds_none (cid : CatId) (fetch : String → FeedResult) (pe : Nat) :
    ∀ urls : List String, (∀ u ∈ urls, (fetch u).failed = true) →
      tryFeeds cid fetch pe urls = none := by
  intro urls
  induction urls with
  | nil => intro _; rfl
  | cons u rest ih =>
    intro h
    have hu := h u (List.mem_cons_self u rest)
    have hrest := fun v hv => h v (List.mem_cons_of_mem u hv)
    cases hf : fetch u with
    | netError => simpa [tryFeeds, hf] using ih hrest
    | entries es =>
      cases es with
      | nil => simpa [tryFeeds, hf] using ih hrest
      | cons e es2 =>
        rw [hf] at hu
        simp [FeedResult.failed] at hu

/-- Helper: when a.category is present, get_image_with_fallback cannot hit the
failing key lookup, so it returns a URL. -/
theorem getImage_some (cat : Catalogue) (a : ArticleRec) (cid : CatId)
    (env : ImgEnv) (h : a.category = some cid) :
    (getImageWithFallback cat (some a) env).isSome = true := by
  rcases hstep : imgStep1 a env with ⟨o, log⟩
  cases o with
  | some img => simp [getImageWithFallback, h, hstep]
  | none =>
    by_cases hp : env.probe = some 200 <;>
      simp [getImageWithFallback, h, hstep, hp]

/-- Helper: with category present, an extraction that yields nothing and a
probe that does not answer 200, the resolver lands on the category's random
fallback image. -/
theorem getImage_bothFail (cat : Catalogue) (a : ArticleRec) (cid : CatId)
    (env : ImgEnv) (h : a.category = some cid) (hex : env.extract = none)
    (hpr : ¬ env.probe = some 200) :
    ∃ log, getImageWithFallback cat (some a) env =
      some (((cat.get cid).fallbackImages).getD
              (env.pickFb % (cat.get cid).fallbackImages.length) "", log) := by
  rcases hstep : imgStep1 a env with ⟨o, log⟩
  have ho : o = none := by
    have h1 : (imgStep1 a env).1 = none := by
      unfold imgStep1
      split <;> simp [hex]
    rw [hstep] at h1
    exact h1
  subst ho
  exact ⟨log ++ [.probeCall], by simp [getImageWithFallback, h, hstep, hpr]⟩

/-- Claim C2: clean summaries longer than 250 characters are stored as their
first 250 characters followed by the three-character ellipsis marker (total
length 253); summaries of at most 250 characters are stored unchanged. -/
theorem summary_truncation (s : List Char) :
    (250 < s.length →
      (truncateSummary s).length = 253 ∧
      (truncateSummary s).take 250 = s.take 250 ∧
      (truncateSummary s).drop 250 = ellipsis) ∧
    (s.length ≤ 250 → truncateSummary s = s) := by
  constructor
  · intro h
    have hlen : (s.take 250).length = 250 := by
      simp [List.length_take]
      omega
    refine ⟨?_, ?_, ?_⟩
    · simp [truncateSummary, if_pos h, List.length_append, hlen, ellipsis]
    · rw [truncateSummary, if_pos h, List.take_left' hlen]
    · rw [truncateSummary, if_pos h, List.drop_left' hlen]
  · intro h
    rw [truncateSummary, if_neg (by omega)]

/-- Witness for C2 at a 251-character input and at a short input. -/
theorem summary_truncation_witness :
    ((truncateSummary (List.replicate 251 'a')).length = 253 ∧
     (truncateSummary (List.replicate 251 'a')).take 250 =
       (List.replicate 251 'a').take 250 ∧
     (truncateSummary (List.replicate 251 'a')).drop 250 = ellipsis) ∧
    truncateSummary "hi".data = "hi".data :=
  ⟨(summary_truncation (List.replicate 251 'a')).1
     (by rw [List.length_replicate]; omega),
   (summary_truncation "hi".data).2 (by decide)⟩

/-- Claim C5 counterexample: with every photo attempt failing and the text
fallback failing once then succeeding, the text fallback is attempted twice —
it goes through send_with_retry like any other send, so it is retried,
contradicting the claim that it is sent exactly once and never retried. -/
theorem text_fallback_retried_counterexample :
    (sendNewsMessage (fun _ => false) (fun i => i == 1)).textTries = 2 ∧
    ¬ (sendNewsMessage (fun _ => false) (fun i => i == 1)).textTries = 1 := by
  constructor <;> decide

/-- Claim C5 amended: when the photo send fails all three of its attempts, the
caption is re-sent as plain text through the same retry helper — attempted
between one and three times, succeeding as soon as one attempt succeeds, and
raising only if all three text attempts fail. -/
theorem text_fallback_shares_retry_policy (photoTry textTry : Nat → Bool)
    (h : ∀ i, photoTry i = false) :
    (sendNewsMessage photoTry textTry).photoTries = 3 ∧
    (sendNewsMessage photoTry textTry).textTries = (retryAttempts textTry).1 ∧
    1 ≤ (sendNewsMessage photoTry textTry).textTries ∧
    (sendNewsMessage photoTry textTry).textTries ≤ 3 ∧
    (sendNewsMessage photoTry textTry).raised = !(retryAttempts textTry).2 := by
  have h0 := h 0
  have h1 := h 1
  have h2 := h 2
  refine ⟨?_, ?_, ?_, ?_, ?_⟩ <;>
    cases ht0 : textTry 0 <;> cases ht1 : textTry 1 <;>
      simp [sendNewsMessage, retryAttempts, h0, h1, h2, ht0, ht1]

/-- Witness for the amended C5: all photo attempts fail, the first text
attempt succeeds. -/
theorem text_fallback_shares_retry_policy_witness :
    (sendNewsMessage (fun _ => false) (fun _ => true)).photoTries = 3 ∧
    (sendNewsMessage (fun _ => false) (fun _ => true)).textTries =
      (retryAttempts (fun _ => true)).1 ∧
    1 ≤ (sendNewsMessage (fun _ => false) (fun _ => true)).textTries ∧
    (sendNewsMessage (fun _ => false) (fun _ => true)).textTries ≤ 3 ∧
    (sendNewsMessage (fun _ => false) (fun _ => true)).raised =
      !(retryAttempts (fun _ => true)).2 :=
  text_fallback_shares_retry_policy (fun _ => false) (fun _ => true) (fun _ => rfl)

/-- Claim C7: the start-up catalogue is not immutable — one use of the
fallback-article path mutates it, because use_fallback_article aliases the
catalogue record and dict.update adds the category and is_fallback keys in
place.  After use_fallback_article(tech) picking index 0, the catalogue
differs from its start-up value. -/
theorem catalogue_mutated_by_fallback_use :
    (useFallbackArticle initState .tech 0).cat ≠ initState.cat := by
  intro h
  have h2 := congrArg
    (fun k => ((k.tech.fallbackArticles.getD 0 dfltArticle).isFallback)) h
  simp [useFallbackArticle, initState, initCatalogue, techCategory,
        Catalogue.get, Catalogue.setCat] at h2

/-- Claim C9: triggering publish with no current article only shows the
no-data warning: the state (including the empty draft slot and the catalogue)
is unchanged, no channel post is sent, and nothing is raised. -/
theorem publish_no_draft_safe (st : BotState) (io : PublishIO) (env : ImgEnv)
    (hcur : st.current = none) (hwarn : io.warnOk = true) :
    publishArticle st io env = ⟨st, [.userNotice noDataText], false⟩ := by
  simp [publishArticle, hcur, hwarn]

/-- Witness for C9 at the start-up state. -/
theorem publish_no_draft_safe_witness :
    publishArticle initState ⟨true, true, true, true⟩ ⟨none, none, 0, 0, 0⟩ =
      ⟨initState, [.userNotice noDataText], false⟩ :=
  publish_no_draft_safe initState ⟨true, true, true, true⟩ ⟨none, none, 0, 0, 0⟩
    rfl rfl

/-- Claim C10: image resolution with no current article returns the first
entry of the fallback-image list of a category picked at random (both
categories reachable), before making any extraction or probe call. -/
theorem image_no_draft_uses_first_fallback (env : ImgEnv) :
    (∃ c : CatId, getImageWithFallback initCatalogue none env =
        some (((initCatalogue.get c).fallbackImages).getD 0 "", [])) ∧
    (∀ c : CatId, ∃ k : Nat,
        getImageWithFallback initCatalogue none
            ⟨env.extract, env.probe, env.pickKw, env.pickFb, k⟩ =
          some (((initCatalogue.get c).fallbackImages).getD 0 "", [])) := by
  constructor
  · rcases Nat.mod_two_eq_zero_or_one env.pickCat with h | h
    · exact ⟨.tech, by simp [getImageWithFallback, catValues, initCatalogue,
        Catalogue.get, h]⟩
    · exact ⟨.politics, by simp [getImageWithFallback, catValues, initCatalogue,
        Catalogue.get, h]⟩
  · intro c
    cases c with
    | tech => exact ⟨0, by simp [getImageWithFallback, catValues, initCatalogue,
        Catalogue.get]⟩
    | politics => exact ⟨1, by simp [getImageWithFallback, catValues, initCatalogue,
        Catalogue.get]⟩

/-- Claim C4 counterexample: draft present, channel delivery succeeds, the
confirmation edit fails, the error notice succeeds.  The channel post is
delivered, yet the draft is NOT cleared — clearing happens only after the
confirmation edit also succeeds — so a succeeding channel-delivery call does
not by itself clear the draft. -/
theorem publish_clear_requires_confirm_counterexample :
    (publishArticle
        ⟨initCatalogue, some (.fresh ⟨"T", "S", some "http://a/x", some .tech, some false⟩)⟩
        ⟨true, false, true, true⟩ ⟨none, none, 0, 0, 0⟩).msgs =
      [.channelPost
         (postText techCategory ⟨"T", "S", some "http://a/x", some .tech, some false⟩)
         "https://images.unsplash.com/photo-1517430816045-df4b7de11d1d",
       .userNotice publishFailText] ∧
    (publishArticle
        ⟨initCatalogue, some (.fresh ⟨"T", "S", some "http://a/x", some .tech, some false⟩)⟩
        ⟨true, false, true, true⟩ ⟨none, none, 0, 0, 0⟩).state.current =
      some (.fresh ⟨"T", "S", some "http://a/x", some .tech, some false⟩) :=
  ⟨rfl, rfl⟩

/-- Claim C4 amended: with a draft present, publish clears the draft and
reports success when the channel delivery and the subsequent confirmation
edit both succeed; when the channel delivery fails (and the error notice can
be shown) the draft is left intact, no channel post is made, and an error
notice is shown. -/
theorem publish_transition (st : BotState) (ref : CurrentRef) (cid : CatId)
    (io : PublishIO) (env : ImgEnv)
    (hcur : st.current = some ref) (hcat : (derefRef st ref).category = some cid) :
    (io.channelOk = true → io.confirmOk = true →
      (publishArticle st io env).state = ⟨st.cat, none⟩ ∧
      (publishArticle st io env).raised = false ∧
      ∃ cap im, (publishArticle st io env).msgs =
        [.channelPost cap im, .userNotice (publishedText (st.cat.get cid))]) ∧
    (io.channelOk = false → io.errOk = true →
      (publishArticle st io env).state = st ∧
      (publishArticle st io env).msgs = [.userNotice publishFailText] ∧
      (publishArticle st io env).raised = false) := by
  have hsome := getImage_some st.cat (derefRef st ref) cid env hcat
  rw [Option.isSome_iff_exists] at hsome
  obtain ⟨p, hp⟩ := hsome
  rcases p with ⟨u, log⟩
  constructor
  · intro hch hcf
    refine ⟨?_, ?_, postText (st.cat.get cid) (derefRef st ref), u, ?_⟩ <;>
      simp [publishArticle, hcur, hcat, hp, hch, hcf]
  · intro hch herr
    refine ⟨?_, ?_, ?_⟩ <;> simp [publishArticle, hcur, hcat, hp, hch, herr]

/-- Witness for the amended C4: a concrete fresh tech draft, published once
with everything succeeding and once with the channel delivery failing. -/
theorem publish_transition_witness :
    ((publishArticle
        ⟨initCatalogue, some (.fresh ⟨"T", "S", some "http://a/x", some .tech, some false⟩)⟩
        ⟨true, true, true, true⟩ ⟨none, none, 0, 0, 0⟩).state = ⟨initCatalogue, none⟩ ∧
     (publishArticle
        ⟨initCatalogue, some (.fresh ⟨"T", "S", some "http://a/x", some .tech, some false⟩)⟩
        ⟨true, true, true, true⟩ ⟨none, none, 0, 0, 0⟩).raised = false ∧
     ∃ cap im, (publishArticle
        ⟨initCatalogue, some (.fresh ⟨"T", "S", some "http://a/x", some .tech, some false⟩)⟩
        ⟨true, true, true, true⟩ ⟨none, none, 0, 0, 0⟩).msgs =
          [.channelPost cap im, .userNotice (publishedText (initCatalogue.get .tech))]) ∧
    ((publishArticle
        ⟨initCatalogue, some (.fresh ⟨"T", "S", some "http://a/x", some .tech, some false⟩)⟩
        ⟨false, true, true, true⟩ ⟨none, none, 0, 0, 0⟩).state =
          ⟨initCatalogue, some (.fresh ⟨"T", "S", some "http://a/x", some .tech, some false⟩)⟩ ∧
     (publishArticle
        ⟨initCatalogue, some (.fresh ⟨"T", "S", some "http://a/x", some .tech, some false⟩)⟩
        ⟨false, true, true, true⟩ ⟨none, none, 0, 0, 0⟩).msgs =
          [.userNotice publishFailText] ∧
     (publishArticle
        ⟨initCatalogue, some (.fresh ⟨"T", "S", some "http://a/x", some .tech, some false⟩)⟩
        ⟨false, true, true, true⟩ ⟨none, none, 0, 0, 0⟩).raised = false) :=
  ⟨(publish_transition
      ⟨initCatalogue, some (.fresh ⟨"T", "S", some "http://a/x", some .tech, some false⟩)⟩
      (.fresh ⟨"T", "S", some "http://a/x", some .tech, some false⟩) .tech
      ⟨true, true, true, true⟩ ⟨none, none, 0, 0, 0⟩ rfl rfl).1 rfl rfl,
   (publish_transition
      ⟨initCatalogue, some (.fresh ⟨"T", "S", some "http://a/x", some .tech, some false⟩)⟩
      (.fresh ⟨"T", "S", some "http://a/x", some .tech, some false⟩) .tech
      ⟨false, true, true, true⟩ ⟨none, none, 0, 0, 0⟩ rfl rfl).2 rfl rfl⟩

/-- Claim C6: in an environment where every send_news_message delivery raises
while the degraded notice still goes through, process_category re-enters
itself through its except block on every iteration: no amount of fuel makes
the run terminate, for any starting state and category.  This contradicts the
requirement that every per-request path terminates and that the recovery path
cannot re-enter itself unboundedly. -/
theorem recovery_reentry_unbounded :
    ∀ (n : Nat) (st : BotState) (c : CatId),
      processCategory n st c
          ⟨fun _ => FeedResult.netError, 0, 0, ⟨none, none, 0, 0, 0⟩, true, true⟩ =
        none := by
  intro n
  induction n with
  | zero => intro st c; rfl
  | succ k ih =>
    intro st c
    simp only [processCategory, Bool.or_true, if_true]
    exact ih _ _

/-- Helper: what find? returning some u means — u satisfies the predicate and
is the first element of the list to do so. -/
theorem findFirstSpec {α : Type} (p : α → Bool) :
    ∀ (l : List α) (u : α), l.find? p = some u →
      p u = true ∧ ∃ pre post, l = pre ++ u :: post ∧ ∀ v ∈ pre, p v = false := by
  intro l
  induction l with
  | nil => intro u h; simp at h
  | cons a t ih =>
    intro u h
    cases hpa : p a with
    | true =>
      rw [List.find?_cons_of_pos t hpa] at h
      obtain rfl : a = u := by injection h
      exact ⟨hpa, [], t, rfl, by intro v hv; simp at hv⟩
    | false =>
      rw [List.find?_cons_of_neg t (by simp [hpa])] at h
      obtain ⟨hgood, pre, post, heq, hpre⟩ := ih u h
      refine ⟨hgood, a :: pre, post, by rw [heq, List.cons_append], ?_⟩
      intro v hv
      rcases List.mem_cons.mp hv with rfl | hv2
      · exact hpa
      · exact hpre v hv2

/-- Claim C8 counterexample: a page with no matching meta tag and a single
inline image whose absolute src contains .jpg but does not end in .jpg, .jpeg
or .png.  The extractor returns it anyway, because the filter tests substring
containment, not the URL's ending. -/
theorem inline_image_suffix_counterexample :
    extractImageFromArticle (some "http://e/a")
        (some ⟨[], ["http://e/x.jpg?width=800".data]⟩) =
      some "http://e/x.jpg?width=800".data ∧
    (imageExts.all fun e => !(e.isSuffixOf "http://e/x.jpg?width=800".data)) = true := by
  constructor
  · rfl
  · decide

/-- Claim C8 amended: when no Open-Graph or Twitter-card meta image matches,
the extractor returns the first inline img src that starts with http and
CONTAINS one of .jpg, .jpeg, .png as a substring (not necessarily as a
suffix); every earlier src fails that containment filter. -/
theorem inline_image_first_contains (l : String) (p : ArticlePage) (u : List Char)
    (hmeta : p.metas.find? metaImageOk = none)
    (hres : extractImageFromArticle (some l) (some p) = some u) :
    goodInlineSrc u = true ∧
    ∃ pre post, p.imgs = pre ++ u :: post ∧ ∀ v ∈ pre, goodInlineSrc v = false := by
  have hfind : p.imgs.find? goodInlineSrc = some u := by
    have h2 : firstInlineImage p.imgs = some u := by
      simpa [extractImageFromArticle, hmeta] using hres
    simpa [firstInlineImage] using h2
  exact findFirstSpec goodInlineSrc p.imgs u hfind

/-- Witness for the amended C8: a page whose only inline image ends in .png. -/
theorem inline_image_first_contains_witness :
    goodInlineSrc "http://a/x.png".data = true ∧
    ∃ pre post, (ArticlePage.mk [] ["http://a/x.png".data]).imgs =
        pre ++ "http://a/x.png".data :: post ∧
      ∀ v ∈ pre, goodInlineSrc v = false :=
  inline_image_first_contains "http://a" ⟨[], ["http://a/x.png".data]⟩
    "http://a/x.png".data rfl rfl

/-- Helper: the Unsplash query URL is never the empty string. -/
theorem unsplash_url_ne_empty (kw : String) : ¬ (unsplashBase ++ kw = "") := by
  intro h
  cases kw with
  | mk d =>
    have h2 : (unsplashBase ++ String.mk d).data = [] := by rw [h]
    rw [String.data_append] at h2
    have h3 := (List.append_eq_nil.mp h2).1
    exact absurd h3 (by decide)

/-- Helper: when the extraction step keeps an image, that image is non-empty
(the if img: guard). -/
theorem imgStep1_some_ne (a : ArticleRec) (env : ImgEnv) (img : String)
    (log : List ExtCall) (h : imgStep1 a env = (some img, log)) : ¬ img = "" := by
  unfold imgStep1 at h
  split at h
  · cases hex : env.extract with
    | none => rw [hex] at h; simp at h
    | some s =>
      rw [hex] at h
      by_cases hs : s = ""
      · simp [hs] at h
      · simp [hs] at h
        rcases h with ⟨rfl, -⟩
        exact hs
  · simp at h

/-- Helper: on the start-up catalogue, random.choice over a category's
fallback image list yields a member of that list, and a non-empty one. -/
theorem fbImages_getD_mem_ne (cid : CatId) (n : Nat) :
    ((initCatalogue.get cid).fallbackImages.getD
        (n % (initCatalogue.get cid).fallbackImages.length) "") ∈
      (initCatalogue.get cid).fallbackImages ∧
    ¬ ((initCatalogue.get cid).fallbackImages.getD
        (n % (initCatalogue.get cid).fallbackImages.length) "") = "" := by
  cases cid <;>
    rcases Nat.mod_two_eq_zero_or_one n with h2 | h2 <;>
      simp [initCatalogue, Catalogue.get, techCategory, politicsCategory, h2]

/-- Claim C3: image resolution for a draft with a defined category always
returns a URL and that URL is non-empty; and in a run where the extraction
yields nothing and the probe does not answer HTTP 200, the returned URL is a
member of the draft category's static fallback image list, every member of
which is reachable by some random pick. -/
theorem image_resolution_fallback (a : ArticleRec) (cid : CatId) (env : ImgEnv)
    (hcat : a.category = some cid) :
    (∃ u log, getImageWithFallback initCatalogue (some a) env = some (u, log) ∧
      ¬ u = "") ∧
    (env.extract = none → ¬ env.probe = some 200 →
      ∃ u log, getImageWithFallback initCatalogue (some a) env = some (u, log) ∧
        u ∈ (initCatalogue.get cid).fallbackImages ∧
        ∀ v ∈ (initCatalogue.get cid).fallbackImages, ∃ k log2,
          getImageWithFallback initCatalogue (some a)
              ⟨env.extract, env.probe, env.pickKw, k, env.pickCat⟩ =
            some (v, log2)) := by
  constructor
  · rcases hstep : imgStep1 a env with ⟨o, log⟩
    cases o with
    | some img =>
      exact ⟨img, log, by simp [getImageWithFallback, hcat, hstep],
             imgStep1_some_ne a env img log hstep⟩
    | none =>
      by_cases hp : env.probe = some 200
      · refine ⟨unsplashBase ++ ((initCatalogue.get cid).imageKeywords.getD
            (env.pickKw % (initCatalogue.get cid).imageKeywords.length) ""),
          log ++ [.probeCall], ?_, unsplash_url_ne_empty _⟩
        simp [getImageWithFallback, hcat, hstep, hp]
      · refine ⟨((initCatalogue.get cid).fallbackImages.getD
            (env.pickFb % (initCatalogue.get cid).fallbackImages.length) ""),
          log ++ [.probeCall], ?_, (fbImages_getD_mem_ne cid env.pickFb).2⟩
        simp [getImageWithFallback, hcat, hstep, hp]
  · intro hex hpr
    obtain ⟨log, hmain⟩ := getImage_bothFail initCatalogue a cid env hcat hex hpr
    refine ⟨_, log, hmain, (fbImages_getD_mem_ne cid env.pickFb).1, ?_⟩
    intro v hv
    cases cid with
    | tech =>
      simp [initCatalogue, Catalogue.get, techCategory] at hv
      rcases hv with rfl | rfl
      · obtain ⟨log2, h2⟩ := getImage_bothFail initCatalogue a .tech
          ⟨env.extract, env.probe, env.pickKw, 0, env.pickCat⟩ hcat hex hpr
        exact ⟨0, log2, by simpa [initCatalogue, Catalogue.get, techCategory] using h2⟩
      · obtain ⟨log2, h2⟩ := getImage_bothFail initCatalogue a .tech
          ⟨env.extract, env.probe, env.pickKw, 1, env.pickCat⟩ hcat hex hpr
        exact ⟨1, log2, by simpa [initCatalogue, Catalogue.get, techCategory] using h2⟩
    | politics =>
      simp [initCatalogue, Catalogue.get, politicsCategory] at hv
      rcases hv with rfl | rfl
      · obtain ⟨log2, h2⟩ := getImage_bothFail initCatalogue a .politics
          ⟨env.extract, env.probe, env.pickKw, 0, env.pickCat⟩ hcat hex hpr
        exact ⟨0, log2, by simpa [initCatalogue, Catalogue.get, politicsCategory] using h2⟩
      · obtain ⟨log2, h2⟩ := getImage_bothFail initCatalogue a .politics
          ⟨env.extract, env.probe, env.pickKw, 1, env.pickCat⟩ hcat hex hpr
        exact ⟨1, log2, by simpa [initCatalogue, Catalogue.get, politicsCategory] using h2⟩

/-- Witness for C3: a fresh tech draft, extraction yields nothing, probe
raises. -/
theorem image_resolution_fallback_witness :
    (∃ u log, getImageWithFallback initCatalogue
        (some ⟨"T", "S", some "http://a/x", some .tech, some false⟩)
        ⟨none, none, 0, 0, 0⟩ = some (u, log) ∧ ¬ u = "") ∧
    (∃ u log, getImageWithFallback initCatalogue
        (some ⟨"T", "S", some "http://a/x", some .tech, some false⟩)
        ⟨none, none, 0, 0, 0⟩ = some (u, log) ∧
      u ∈ (initCatalogue.get .tech).fallbackImages ∧
      ∀ v ∈ (initCatalogue.get .tech).fallbackImages, ∃ k log2,
        getImageWithFallback initCatalogue
            (some ⟨"T", "S", some "http://a/x", some .tech, some false⟩)
            ⟨none, none, 0, k, 0⟩ = some (v, log2)) :=
  ⟨(image_resolution_fallback ⟨"T", "S", some "http://a/x", some .tech, some false⟩
      .tech ⟨none, none, 0, 0, 0⟩ rfl).1,
   (image_resolution_fallback ⟨"T", "S", some "http://a/x", some .tech, some false⟩
      .tech ⟨none, none, 0, 0, 0⟩ rfl).2 rfl (by decide)⟩

/-- Helper: computing use_fallback_article on the start-up catalogue — the
current article afterwards is the randomly chosen fallback record with the
category and is_fallback keys added (both categories have exactly two
fallback articles). -/
theorem useFallback_article_compute (c : CatId) (r : Nat) :
    currentArticle (useFallbackArticle initState c r) =
      some ⟨((((initCatalogue.get c).fallbackArticles).getD (r % 2) dfltArticle)).title,
            ((((initCatalogue.get c).fallbackArticles).getD (r % 2) dfltArticle)).summary,
            ((((initCatalogue.get c).fallbackArticles).getD (r % 2) dfltArticle)).link,
            some c, some true⟩ := by
  cases c <;>
    rcases Nat.mod_two_eq_zero_or_one r with h2 | h2 <;>
      simp [useFallbackArticle, currentArticle, derefRef, initState, initCatalogue,
            Catalogue.get, Catalogue.setCat, techCategory, politicsCategory, h2]

/-- Claim C1: for every defined category, when every feed URL in its list
fails (network error, non-2xx status, or no entries), article resolution
still produces a current article: one chosen by the uniform random index from
the category's static fallback list (every entry of which is reachable), with
non-empty title and summary and origin flag is_fallback = True. -/
theorem article_resolution_total_fallback (c : CatId) (fetch : String → FeedResult)
    (pe r : Nat)
    (hfail : ∀ u ∈ (initCatalogue.get c).rss, (fetch u).failed = true) :
    ∃ a, currentArticle (resolveArticle initState c fetch pe r) = some a ∧
      a.isFallback = some true ∧ a.category = some c ∧
      ¬ a.title = "" ∧ ¬ a.summary = "" ∧
      (∃ b ∈ (initCatalogue.get c).fallbackArticles,
        a.title = b.title ∧ a.summary = b.summary) ∧
      ∀ b ∈ (initCatalogue.get c).fallbackArticles, ∃ r2 a2,
        currentArticle (resolveArticle initState c fetch pe r2) = some a2 ∧
        a2.isFallback = some true ∧ a2.title = b.title ∧ a2.summary = b.summary := by
  have htry : tryGetFreshArticle (initState.cat.get c) c fetch pe = none :=
    tryFeeds_none c fetch pe _ hfail
  have hres : ∀ r2 : Nat, resolveArticle initState c fetch pe r2 =
      useFallbackArticle initState c r2 := by
    intro r2
    unfold resolveArticle
    rw [htry]
  have key : ∀ r2 : Nat, currentArticle (resolveArticle initState c fetch pe r2) =
      some ⟨((((initCatalogue.get c).fallbackArticles).getD (r2 % 2) dfltArticle)).title,
            ((((initCatalogue.get c).fallbackArticles).getD (r2 % 2) dfltArticle)).summary,
            ((((initCatalogue.get c).fallbackArticles).getD (r2 % 2) dfltArticle)).link,
            some c, some true⟩ := by
    intro r2
    rw [hres r2, useFallback_article_compute]
  refine ⟨_, key r, rfl, rfl, ?_, ?_, ?_, ?_⟩
  · cases c <;>
      rcases Nat.mod_two_eq_zero_or_one r with h2 | h2 <;>
        simp [initCatalogue, Catalogue.get, techCategory, politicsCategory, h2]
  · cases c <;>
      rcases Nat.mod_two_eq_zero_or_one r with h2 | h2 <;>
        simp [initCatalogue, Catalogue.get, techCategory, politicsCategory, h2]
  · refine ⟨(((initCatalogue.get c).fallbackArticles).getD (r % 2) dfltArticle),
      ?_, rfl, rfl⟩
    cases c <;>
      rcases Nat.mod_two_eq_zero_or_one r with h2 | h2 <;>
        simp [initCatalogue, Catalogue.get, techCategory, politicsCategory, h2]
  · intro b hb
    cases c with
    | tech =>
      simp [initCatalogue, Catalogue.get, techCategory] at hb
      rcases hb with rfl | rfl
      · exact ⟨0, _, key 0, rfl, rfl, rfl⟩
      · exact ⟨1, _, key 1, rfl, rfl, rfl⟩
    | politics =>
      simp [initCatalogue, Catalogue.get, politicsCategory] at hb
      rcases hb with rfl | rfl
      · exact ⟨0, _, key 0, rfl, rfl, rfl⟩
      · exact ⟨1, _, key 1, rfl, rfl, rfl⟩

/-- Witness for C1: category tech, every fetch a network error. -/
theorem article_resolution_total_fallback_witness :
    ∃ a, currentArticle (resolveArticle initState .tech
        (fun _ => FeedResult.netError) 0 0) = some a ∧
      a.isFallback = some true ∧ a.category = some .tech ∧
      ¬ a.title = "" ∧ ¬ a.summary = "" ∧
      (∃ b ∈ (initCatalogue.get .tech).fallbackArticles,
        a.title = b.title ∧ a.summary = b.summary) ∧
      ∀ b ∈ (initCatalogue.get .tech).fallbackArticles, ∃ r2 a2,
        currentArticle (resolveArticle initState .tech
            (fun _ => FeedResult.netError) 0 r2) = some a2 ∧
        a2.isFallback = some true ∧ a2.title = b.title ∧ a2.summary = b.summary :=
  article_resolution_total_fallback .tech (fun _ => FeedResult.netError) 0 0
    (fun _ _ => rfl)
